import Mathlib

set_option maxRecDepth 8000

/-!
Verification of the vault password-hashing microservice.

The Go sources are embedded shallowly:

* Go `string` is modelled as Lean `String`; Go `error` as `Option String`
  (`none` is the nil error, `some m` a non-nil error whose `Error()` method
  returns `m`).
* A Go function returning `(T, error)` becomes a Lean function returning
  `T × Option String`.
* The bcrypt primitive (`golang.org/x/crypto/bcrypt`) is not part of the
  repository; it is modelled from the spec (§4.1, glossary): a salted,
  cost-parameterized digest, with the salt made an explicit parameter to
  expose the library's internal randomness.  The key-derivation function
  itself is an abstract concrete mixing function; no claim depends on its
  cryptographic properties, only on the recompute-and-compare structure of
  `CompareHashAndPassword`.
-/

/-- Modelled from the spec: the unary marker run used by the model's bcrypt
hash encoding (cost, salt and derived key are stored as runs of a marker
character separated by a delimiter, so the encoding is invertible). -/
def natMark (n : Nat) : List Char := List.replicate n '*'

/-- Consume the leading run of marker characters, returning its length and
the remainder of the input. -/
def takeStars : List Char → Nat × List Char
  | [] => (0, [])
  | c :: rest =>
    if c = '*' then ((takeStars rest).1 + 1, (takeStars rest).2)
    else (0, c :: rest)

/-- Consume one delimiter character, failing on anything else. -/
def expectDollar : List Char → Option (List Char)
  | [] => none
  | c :: rest => if c = '$' then some rest else none

/-- Modelled from the spec: the textual form of a bcrypt hash, carrying the
cost factor, the salt and the derived key. -/
def formatBcryptHash (cost salt key : Nat) : String :=
  String.mk ('$' :: (natMark cost ++ '$' :: (natMark salt ++ '$' :: natMark key)))

/-- Modelled from the spec: recover `(cost, salt, key)` from a hash string's
characters; `none` on any malformed input. -/
def parseBcryptHash (s : List Char) : Option (Nat × Nat × Nat) :=
  match expectDollar s with
  | none => none
  | some r1 =>
    match expectDollar (takeStars r1).2 with
    | none => none
    | some r3 =>
      match expectDollar (takeStars r3).2 with
      | none => none
      | some r5 =>
        if (takeStars r5).2 = [] then
          some ((takeStars r1).1, (takeStars r3).1, (takeStars r5).1)
        else none

/-- Modelled from the spec: the cost- and salt-dependent key derivation at
the heart of the adaptive primitive.  A simple mixing function stands in for
the real (one-way) computation; every claim below only uses that it is a
function of `(password, cost, salt)`. -/
def bcryptKDF (password : List Char) (cost salt : Nat) : Nat :=
  password.foldl (fun a c => (a * 31 + c.toNat) % 251) (salt * 64 + cost)

/-- Go's `bcrypt.DefaultCost`. -/
def bcrypt.DefaultCost : Nat := 10

/-- Modelled from the spec: `bcrypt.GenerateFromPassword`.  The salt drawn
internally from the entropy source is an explicit first argument.  A cost
above the maximum is rejected; a cost below the minimum falls back to the
default, as in the library. -/
def bcrypt.GenerateFromPassword (salt : Nat) (password : String) (cost : Nat) :
    String × Option String :=
  if 31 < cost then ("", some "crypto/bcrypt: cost out of range")
  else
    (formatBcryptHash (if cost < 4 then 10 else cost) salt
      (bcryptKDF password.data (if cost < 4 then 10 else cost) salt), none)

/-- Modelled from the spec: `bcrypt.CompareHashAndPassword` parses the
stored hash, re-derives the key from the candidate password with the stored
cost and salt, and compares; a nil error means the password matches. -/
def bcrypt.CompareHashAndPassword (hashedPassword password : String) : Option String :=
  match parseBcryptHash hashedPassword.data with
  | none => some "crypto/bcrypt: hashedSecret too short to be a bcrypted password"
  | some (cost, salt, key) =>
    if bcryptKDF password.data cost salt = key then none
    else some "crypto/bcrypt: hashedPassword is not the hash of the given password"

/-- `vaultService.Hash` (service source, lines 31–40): delegate to
`bcrypt.GenerateFromPassword` with the default cost; on error return the
empty string and the error, otherwise the hash and a nil error. -/
def vaultService.Hash (salt : Nat) (password : String) : String × Option String :=
  match bcrypt.GenerateFromPassword salt password bcrypt.DefaultCost with
  | (_, some err) => ("", some err)
  | (hash, none) => (hash, none)

/-- `vaultService.Validate` (service source, lines 42–51): delegate to
`bcrypt.CompareHashAndPassword`; any comparison error — mismatch or
malformed hash alike — is reported as `(false, nil)`, a match as
`(true, nil)`. -/
def vaultService.Validate (password hash : String) : Bool × Option String :=
  match bcrypt.CompareHashAndPassword hash password with
  | some _ => (false, none)
  | none => (true, none)

/-- The two-operation service contract (service source, lines 5–10).  The
untyped `context.Context` argument is dropped: no implementation reads it. -/
structure Service where
  Hash : String → String × Option String
  Validate : String → String → Bool × Option String

/-- `NewService` (service source, lines 21–23).  The salt parameter threads
the entropy the real service draws per call. -/
def NewService (salt : Nat) : Service :=
  { Hash := vaultService.Hash salt, Validate := vaultService.Validate }

/- Helper lemmas about the hash encoding. -/

theorem takeStars_natMark_append (n : Nat) (l : List Char) :
    takeStars (natMark n ++ l) = ((takeStars l).1 + n, (takeStars l).2) := by
  induction n with
  | zero => simp [natMark]
  | succ n ih =>
    simp only [natMark, List.replicate_succ, List.cons_append] at *
    simp [takeStars, ih]
    omega

theorem takeStars_natMark (n : Nat) : takeStars (natMark n) = (n, []) := by
  have h := takeStars_natMark_append n []
  simpa [takeStars] using h

theorem parseBcryptHash_format (cost salt key : Nat) :
    parseBcryptHash (formatBcryptHash cost salt key).data = some (cost, salt, key) := by
  simp [formatBcryptHash, parseBcryptHash, expectDollar, takeStars,
    takeStars_natMark_append, takeStars_natMark]

/-- C1: if `Hash` succeeds with hash `h` on password `p`, then `Validate(p, h)`
returns `true` (with a nil error): validating a password against the hash
produced from that same password always succeeds, for every salt the
primitive may draw. -/
theorem hash_validate_roundtrip (salt : Nat) (p h : String)
    (hh : vaultService.Hash salt p = (h, none)) :
    vaultService.Validate p h = (true, none) := by
  have hs : formatBcryptHash 10 salt (bcryptKDF p.data 10 salt) = h := by
    simpa [vaultService.Hash, bcrypt.GenerateFromPassword, bcrypt.DefaultCost] using hh
  subst hs
  simp [vaultService.Validate, bcrypt.CompareHashAndPassword, parseBcryptHash_format]

/-- C1 witness: hashing the concrete password "secret" with salt 3 produces a
hash that validates. -/
theorem hash_validate_roundtrip_witness :
    vaultService.Validate "secret" (vaultService.Hash 3 "secret").1 = (true, none) :=
  hash_validate_roundtrip 3 "secret" (vaultService.Hash 3 "secret").1 (by decide)

/-- C3: `Validate` always returns a nil error; a mismatched password yields
`(false, nil)` and an un-parseable hash also yields `(false, nil)` instead of
a distinguishable error. -/
theorem validate_never_errors (p h : String) :
    (vaultService.Validate p h).2 = none ∧
    (parseBcryptHash h.data = none → vaultService.Validate p h = (false, none)) ∧
    (∀ cost salt key, parseBcryptHash h.data = some (cost, salt, key) →
      bcryptKDF p.data cost salt ≠ key → vaultService.Validate p h = (false, none)) := by
  refine ⟨?_, ?_, ?_⟩
  · rcases hC : bcrypt.CompareHashAndPassword h p with _ | e <;>
      simp [vaultService.Validate, hC]
  · intro hparse
    simp [vaultService.Validate, bcrypt.CompareHashAndPassword, hparse]
  · intro cost salt key hparse hne
    simp [vaultService.Validate, bcrypt.CompareHashAndPassword, hparse, hne]

/-- C3 witness: the un-parseable hash "junk" and a well-formed hash whose key
does not match the password "p" both yield `(false, nil)`. -/
theorem validate_never_errors_witness :
    vaultService.Validate "p" "junk" = (false, none) ∧
    vaultService.Validate "p" (formatBcryptHash 4 0 0) = (false, none) :=
  ⟨(validate_never_errors "p" "junk").2.1 (by decide),
   (validate_never_errors "p" (formatBcryptHash 4 0 0)).2.2 4 0 0
     (by decide) (by decide)⟩

/- Generic request/response shapes (service source, lines 61–96). -/

/-- `hashRequest` (service source, lines 61–63). -/
structure hashRequest where
  Password : String
deriving DecidableEq

/-- `hashResponse` (service source, lines 65–68). -/
structure hashResponse where
  Hash : String
  Err : String
deriving DecidableEq

/-- `validateRequest` (service source, lines 88–91). -/
structure validateRequest where
  Password : String
  Hash : String
deriving DecidableEq

/-- `validateResponse` (service source, lines 93–96). -/
structure validateResponse where
  Valid : Bool
  Err : String
deriving DecidableEq

/-- `MakeHashEndpoint` (service source, lines 132–145): call the service; on
failure embed the stringified error in the response alongside the value the
service returned, with a nil transport error; on success embed the hash and
an empty error string.  The Go `interface\x7b\x7d` request narrowed by a type
assertion is represented by the typed argument. -/
def MakeHashEndpoint (srv : Service) (req : hashRequest) :
    hashResponse × Option String :=
  match srv.Hash req.Password with
  | (v, some e) => ({ Hash := v, Err := e }, none)
  | (v, none) => ({ Hash := v, Err := "" }, none)

/-- `MakeValidateEndpoint` (service source, lines 148–161): like the hash
endpoint, but a failing service call forces the valid flag to `false`. -/
def MakeValidateEndpoint (srv : Service) (req : validateRequest) :
    validateResponse × Option String :=
  match srv.Validate req.Password req.Hash with
  | (_, some e) => ({ Valid := false, Err := e }, none)
  | (v, none) => ({ Valid := v, Err := "" }, none)

/-- `Endpoints` (service source, lines 170–173). -/
structure Endpoints where
  HashEndpoint : hashRequest → hashResponse × Option String
  ValidateEndpoint : validateRequest → validateResponse × Option String

/-- `Endpoints.Hash` (service source, lines 175–190): invoke the captured
endpoint; propagate a transport error; otherwise a non-empty embedded `Err`
becomes a genuine error (via `errors.New`), else return the hash. -/
def Endpoints.Hash (e : Endpoints) (password : String) : String × Option String :=
  match e.HashEndpoint { Password := password } with
  | (_, some err) => ("", some err)
  | (resp, none) => if resp.Err ≠ "" then ("", some resp.Err) else (resp.Hash, none)

/-- `Endpoints.Validate` (service source, lines 192–207). -/
def Endpoints.Validate (e : Endpoints) (password hash : String) :
    Bool × Option String :=
  match e.ValidateEndpoint { Password := password, Hash := hash } with
  | (_, some err) => (false, some err)
  | (resp, none) => if resp.Err ≠ "" then (false, some resp.Err) else (resp.Valid, none)

/-- The aggregate built in `main` from the two endpoint constructors. -/
def mkEndpoints (srv : Service) : Endpoints :=
  { HashEndpoint := MakeHashEndpoint srv, ValidateEndpoint := MakeValidateEndpoint srv }

/-- A service whose `Hash` fails while returning a non-zero hash value
alongside the error; legal for the `Service` contract. -/
def badHashService : Service :=
  { Hash := fun _ => ("boom", some "fail"), Validate := fun _ _ => (false, none) }

/-- A service whose `Validate` fails with flag `true` alongside the error. -/
def badValidateService : Service :=
  { Hash := fun _ => ("", none), Validate := fun _ _ => (true, some "vfail") }

/-- C4 counterexample: `badHashService.Hash` fails, yet the response built by
`MakeHashEndpoint` carries the service's non-zero hash value "boom" in its
success field, not the zero value the claim demands. -/
theorem endpoint_error_payload_cex :
    (badHashService.Hash "x").2 = some "fail" ∧
    MakeHashEndpoint badHashService { Password := "x" } =
      ({ Hash := "boom", Err := "fail" }, none) ∧
    ("boom" : String) ≠ "" := by
  refine ⟨rfl, rfl, by decide⟩

/-- C4 (amended): when the underlying service call fails, both endpoints
return a nil transport error and a response whose error field is the
stringified failure; the validate endpoint forces the valid flag to `false`,
while the hash endpoint passes through the hash value the failing service
returned (the zero value for services that follow the convention of
returning it, as `vaultService` does). -/
theorem endpoint_error_payload (S : Service) (hreq : hashRequest)
    (vreq : validateRequest) (v e : String) (b : Bool) :
    (S.Hash hreq.Password = (v, some e) →
      MakeHashEndpoint S hreq = ({ Hash := v, Err := e }, none)) ∧
    (S.Validate vreq.Password vreq.Hash = (b, some e) →
      MakeValidateEndpoint S vreq = ({ Valid := false, Err := e }, none)) := by
  constructor
  · intro hS; simp [MakeHashEndpoint, hS]
  · intro hS; simp [MakeValidateEndpoint, hS]

/-- C4 witness: the failing services above, at concrete requests. -/
theorem endpoint_error_payload_witness :
    MakeHashEndpoint badHashService { Password := "x" } =
      ({ Hash := "boom", Err := "fail" }, none) ∧
    MakeValidateEndpoint badValidateService { Password := "x", Hash := "y" } =
      ({ Valid := false, Err := "vfail" }, none) :=
  ⟨(endpoint_error_payload badHashService ⟨"x"⟩ ⟨"x", "y"⟩ "boom" "fail" true).1
      (by decide),
   (endpoint_error_payload badValidateService ⟨"x"⟩ ⟨"x", "y"⟩ "" "vfail" true).2
      (by decide)⟩

/-- C6: every response the endpoint layer produces over the real hashing
service satisfies the mutual-exclusion invariant: the transport error is nil,
the embedded error field is empty, the hash field is non-empty, and hash and
error are never both populated (the failure side of the invariant is vacuous
because the real service's calls never fail). -/
theorem real_service_response_invariant (salt : Nat) (hreq : hashRequest)
    (vreq : validateRequest) :
    (MakeHashEndpoint (NewService salt) hreq).2 = none ∧
    (MakeHashEndpoint (NewService salt) hreq).1.Err = "" ∧
    (MakeHashEndpoint (NewService salt) hreq).1.Hash ≠ "" ∧
    ¬((MakeHashEndpoint (NewService salt) hreq).1.Hash ≠ "" ∧
      (MakeHashEndpoint (NewService salt) hreq).1.Err ≠ "") ∧
    (MakeValidateEndpoint (NewService salt) vreq).2 = none ∧
    (MakeValidateEndpoint (NewService salt) vreq).1.Err = "" := by
  have hne : formatBcryptHash 10 salt (bcryptKDF hreq.Password.data 10 salt) ≠ "" := by
    intro hcontra
    have := congrArg String.data hcontra
    simp [formatBcryptHash] at this
  refine ⟨?_, ?_, ?_, ?_, ?_, ?_⟩ <;>
    rcases hC : bcrypt.CompareHashAndPassword vreq.Hash vreq.Password with _ | e <;>
    simp [MakeHashEndpoint, MakeValidateEndpoint, NewService, vaultService.Hash,
      vaultService.Validate, bcrypt.GenerateFromPassword, bcrypt.DefaultCost, hC, hne]

/-- C6 witness: the invariant at salt 0 and concrete requests. -/
theorem real_service_response_invariant_witness :
    (MakeHashEndpoint (NewService 0) { Password := "a" }).2 = none ∧
    (MakeHashEndpoint (NewService 0) { Password := "a" }).1.Err = "" ∧
    (MakeHashEndpoint (NewService 0) { Password := "a" }).1.Hash ≠ "" ∧
    (MakeValidateEndpoint (NewService 0) { Password := "a", Hash := "b" }).2 = none ∧
    (MakeValidateEndpoint (NewService 0) { Password := "a", Hash := "b" }).1.Err = "" := by
  obtain ⟨h1, h2, h3, _, h5, h6⟩ :=
    real_service_response_invariant 0 { Password := "a" } { Password := "a", Hash := "b" }
  exact ⟨h1, h2, h3, h5, h6⟩

/-- A service both of whose operations fail with an error whose message is
the empty string; legal for the `Service` contract. -/
def emptyMsgFailService : Service :=
  { Hash := fun _ => ("", some ""), Validate := fun _ _ => (false, some "") }

/-- C5 counterexample: `emptyMsgFailService.Hash` fails (its error is
non-nil), yet the endpoint-wrapped aggregate reports success — so the
aggregate does not return a genuine error exactly when the service fails. -/
theorem endpoints_refine_service_cex :
    (emptyMsgFailService.Hash "x").2 = some "" ∧
    (Endpoints.Hash (mkEndpoints emptyMsgFailService) "x").2 = none := by
  refine ⟨rfl, by decide⟩

/-- C5 (amended): the aggregate built from the two endpoint constructors is
interchangeable with the underlying service whenever failures carry a
non-empty message: `Endpoints.Hash` returns the same hash on success and an
error with the same message when `S.Hash` fails with a non-empty message;
`Endpoints.Validate` returns the same boolean on success and an error with
the same message (flag `false`) when `S.Validate` fails with a non-empty
message.  A failure whose message is the empty string is reported as
success. -/
theorem endpoints_refine_service (S : Service) (p h v e : String) (b : Bool) :
    (S.Hash p = (v, none) → Endpoints.Hash (mkEndpoints S) p = (v, none)) ∧
    (S.Hash p = (v, some e) → e ≠ "" →
      Endpoints.Hash (mkEndpoints S) p = ("", some e)) ∧
    (S.Validate p h = (b, none) →
      Endpoints.Validate (mkEndpoints S) p h = (b, none)) ∧
    (S.Validate p h = (b, some e) → e ≠ "" →
      Endpoints.Validate (mkEndpoints S) p h = (false, some e)) := by
  refine ⟨?_, ?_, ?_, ?_⟩
  · intro hS
    simp [Endpoints.Hash, mkEndpoints, MakeHashEndpoint, hS]
  · intro hS he
    simp [Endpoints.Hash, mkEndpoints, MakeHashEndpoint, hS, he]
  · intro hS
    simp [Endpoints.Validate, mkEndpoints, MakeValidateEndpoint, hS]
  · intro hS he
    simp [Endpoints.Validate, mkEndpoints, MakeValidateEndpoint, hS, he]

/-- C5 witness: the real service on success paths, the failing services on
error paths, at concrete inputs. -/
theorem endpoints_refine_service_witness :
    Endpoints.Hash (mkEndpoints (NewService 0)) "p" =
      ((vaultService.Hash 0 "p").1, none) ∧
    Endpoints.Hash (mkEndpoints badHashService) "p" = ("", some "fail") ∧
    Endpoints.Validate (mkEndpoints (NewService 0)) "p" "junk" = (false, none) ∧
    Endpoints.Validate (mkEndpoints badValidateService) "p" "h" =
      (false, some "vfail") :=
  ⟨(endpoints_refine_service (NewService 0) "p" "h" (vaultService.Hash 0 "p").1
      "e" true).1 (by decide),
   (endpoints_refine_service badHashService "p" "h" "boom" "fail" true).2.1
      (by decide) (by decide),
   (endpoints_refine_service (NewService 0) "p" "junk" "v" "e" false).2.2.1
      (by decide),
   (endpoints_refine_service badValidateService "p" "h" "v" "vfail" true).2.2.2
      (by decide) (by decide)⟩

/-- C10: the aggregate detects a domain failure solely through a non-empty
embedded `Err` string, so a failure whose message is the empty string is
silently lost: `Endpoints.Hash` reports success with the zero-value hash and
`Endpoints.Validate` reports success with the response's valid flag (forced
to `false` by the validate endpoint's error path). -/
theorem empty_error_message_lost (S : Service) (p h : String) (b : Bool) :
    (S.Hash p = ("", some "") → Endpoints.Hash (mkEndpoints S) p = ("", none)) ∧
    (S.Validate p h = (b, some "") →
      Endpoints.Validate (mkEndpoints S) p h = (false, none)) := by
  constructor
  · intro hS
    simp [Endpoints.Hash, mkEndpoints, MakeHashEndpoint, hS]
  · intro hS
    simp [Endpoints.Validate, mkEndpoints, MakeValidateEndpoint, hS]

/-- C10 witness: the empty-message failing service at concrete inputs. -/
theorem empty_error_message_lost_witness :
    Endpoints.Hash (mkEndpoints emptyMsgFailService) "x" = ("", none) ∧
    Endpoints.Validate (mkEndpoints emptyMsgFailService) "x" "y" = (false, none) :=
  ⟨(empty_error_message_lost emptyMsgFailService "x" "y" false).1 (by decide),
   (empty_error_message_lost emptyMsgFailService "x" "y" false).2 (by decide)⟩

/- The protocol-buffer message types are generated code absent from the
sources; they are modelled from the spec's RPC interface table (§6):
`HashRequest` carries password, `HashResponse` carries hash and err,
`ValidateRequest` carries password and hash, and `ValidateResponse` carries
only valid. -/

/-- Modelled from the spec: generated message `pb.HashRequest`. -/
structure pb.HashRequest where
  Password : String
deriving DecidableEq

/-- Modelled from the spec: generated message `pb.HashResponse`. -/
structure pb.HashResponse where
  Hash : String
  Err : String
deriving DecidableEq

/-- Modelled from the spec: generated message `pb.ValidateRequest`. -/
structure pb.ValidateRequest where
  Password : String
  Hash : String
deriving DecidableEq

/-- Modelled from the spec: generated message `pb.ValidateResponse`; per §6
it carries only the valid flag. -/
structure pb.ValidateResponse where
  Valid : Bool
deriving DecidableEq

/-- `EncodeGRPCHashRequest` (server_grpc.go, lines 48–53). -/
def EncodeGRPCHashRequest (r : hashRequest) : pb.HashRequest :=
  { Password := r.Password }

/-- `DecodeGRPCHashRequest` (server_grpc.go, lines 59–64). -/
def DecodeGRPCHashRequest (r : pb.HashRequest) : hashRequest :=
  { Password := r.Password }

/-- `EncodeGRPCHashResponse` (server_grpc.go, lines 66–71). -/
def EncodeGRPCHashResponse (r : hashResponse) : pb.HashResponse :=
  { Hash := r.Hash, Err := r.Err }

/-- `DecodeGRPCHashResponse` (server_grpc.go, lines 73–78). -/
def DecodeGRPCHashResponse (r : pb.HashResponse) : hashResponse :=
  { Hash := r.Hash, Err := r.Err }

/-- `EncodeGRPCValidateRequest` (server_grpc.go, lines 80–85). -/
def EncodeGRPCValidateRequest (r : validateRequest) : pb.ValidateRequest :=
  { Password := r.Password, Hash := r.Hash }

/-- `DecodeGRPCValidateRequest` (server_grpc.go, lines 87–92). -/
def DecodeGRPCValidateRequest (r : pb.ValidateRequest) : validateRequest :=
  { Password := r.Password, Hash := r.Hash }

/-- `EncodeGRPCValidateResponse` (server_grpc.go, lines 94–99): only the
valid flag crosses the wire; the embedded error string is dropped. -/
def EncodeGRPCValidateResponse (r : validateResponse) : pb.ValidateResponse :=
  { Valid := r.Valid }

/-- `DecodeGRPCValidateResponse` (server_grpc.go, lines 101–106): the decoded
response's error field is the Go zero value, the empty string. -/
def DecodeGRPCValidateResponse (r : pb.ValidateResponse) : validateResponse :=
  { Valid := r.Valid, Err := "" }

/-- C2 counterexample: a validate response with a non-empty `Err` does not
survive the gRPC encode/decode round trip — the error string is dropped. -/
theorem grpc_response_roundtrip_cex :
    DecodeGRPCValidateResponse
        (EncodeGRPCValidateResponse { Valid := true, Err := "boom" }) ≠
      ({ Valid := true, Err := "boom" } : validateResponse) := by
  decide

/-- C2 (amended): the hash-response codec pair is an exact field-for-field
mirror (round-trip identity, `Err` included), but the validate-response pair
preserves only the valid flag: decoding the encoding of a `validateResponse`
yields the original valid flag with an empty `Err`, so round-trip identity
holds for a validate response exactly when its `Err` is empty. -/
theorem grpc_response_roundtrip (hr : hashResponse) (vr : validateResponse) :
    DecodeGRPCHashResponse (EncodeGRPCHashResponse hr) = hr ∧
    DecodeGRPCValidateResponse (EncodeGRPCValidateResponse vr) =
      { Valid := vr.Valid, Err := "" } := by
  exact ⟨rfl, rfl⟩

/- HTTP request decoding.  The JSON codec (`encoding/json`) is not part of
the repository; a minimal model covering the flat string-field request
objects is used: an object of string-valued members (no escape sequences,
no nested values), with Go's last-member-wins rule for duplicate keys and
absent members defaulting to the zero value. -/

/-- Skip JSON whitespace. -/
def skipWs : List Char → List Char
  | [] => []
  | c :: cs =>
    if c = ' ' ∨ c = '\n' ∨ c = '\t' ∨ c = '\r' then skipWs cs else c :: cs

/-- Read the body of a quoted string up to the closing quote. -/
def parseStringBody : List Char → Option (List Char × List Char)
  | [] => none
  | c :: cs =>
    if c = '"' then some ([], cs)
    else (parseStringBody cs).map fun p => (c :: p.1, p.2)

/-- Read one `"key" : "value"` member. -/
def parseMember (l : List Char) : Option ((String × String) × List Char) :=
  match skipWs l with
  | '"' :: r1 =>
    match parseStringBody r1 with
    | some (k, r2) =>
      match skipWs r2 with
      | ':' :: r3 =>
        match skipWs r3 with
        | '"' :: r4 =>
          match parseStringBody r4 with
          | some (v, r5) => some ((String.mk k, String.mk v), r5)
          | none => none
        | _ => none
      | _ => none
    | none => none
  | _ => none

/-- Read a comma-separated member list (fuel-bounded recursion). -/
def parseMembersAux : Nat → List Char → Option (List (String × String) × List Char)
  | 0, _ => none
  | fuel + 1, l =>
    match parseMember l with
    | none => none
    | some (kv, r) =>
      match skipWs r with
      | ',' :: r2 => (parseMembersAux fuel r2).map fun p => (kv :: p.1, p.2)
      | r2 => some ([kv], r2)

/-- Read one JSON object of string-valued members. -/
def parseJSONObject (l : List Char) : Option (List (String × String) × List Char) :=
  match skipWs l with
  | '{' :: r1 =>
    match skipWs r1 with
    | '}' :: r2 => some ([], r2)
    | _ =>
      match parseMembersAux (r1.length + 1) r1 with
      | some (kvs, r2) =>
        match skipWs r2 with
        | '}' :: r3 => some (kvs, r3)
        | _ => none
      | none => none
  | _ => none

/-- Go's unmarshalling rule for a string field: the last member with the
field's key wins; an absent member leaves the zero value. -/
def jsonField (kvs : List (String × String)) (key : String) : String :=
  kvs.foldl (fun acc kv => if kv.1 = key then kv.2 else acc) ""

/-- Modelled from the spec: `json.NewDecoder(r.Body).Decode(&req)` for a
`hashRequest` target. -/
def jsonDecodeHashRequest (body : String) : Except String hashRequest :=
  match parseJSONObject body.data with
  | some (kvs, _) => Except.ok { Password := jsonField kvs "password" }
  | none => Except.error "invalid JSON"

/-- Modelled from the spec: the JSON decode step for a `validateRequest`
target. -/
def jsonDecodeValidateRequest (body : String) : Except String validateRequest :=
  match parseJSONObject body.data with
  | some (kvs, _) =>
    Except.ok { Password := jsonField kvs "password", Hash := jsonField kvs "hash" }
  | none => Except.error "invalid JSON"

/-- `decodeHashRequest` (service source, lines 75–85): on a decode error
return no request and the error; otherwise the request and a nil error. -/
def decodeHashRequest (body : String) : Option hashRequest × Option String :=
  match jsonDecodeHashRequest body with
  | Except.error e => (none, some e)
  | Except.ok req => (some req, none)

/-- `decodeValidateRequest` (service source, lines 98–108). -/
def decodeValidateRequest (body : String) : Option validateRequest × Option String :=
  match jsonDecodeValidateRequest body with
  | Except.error e => (none, some e)
  | Except.ok req => (some req, none)

/-- Modelled from the spec: the transport server loop (§4.3, §7) — decode
the body, and on a decode error abort with a transport-level failure before
the endpoint runs; otherwise invoke the endpoint and deliver its response,
with an endpoint error likewise surfaced at the transport level.  The
`(none, none)` branch is unreachable for the decoders above (in Go it would
fail in the endpoint's type assertion). -/
def httpServe {ρ σ : Type} (dec : String → Option ρ × Option String)
    (ep : ρ → σ × Option String) (body : String) : Except String σ :=
  match dec body with
  | (_, some e) => Except.error e
  | (some req, none) =>
    match ep req with
    | (resp, none) => Except.ok resp
    | (_, some e) => Except.error e
  | (none, none) => Except.error "nil request"

/-- C8: a body the JSON decoder rejects makes `decodeHashRequest` (and
`decodeValidateRequest`) return no request and a non-nil error, and the
served call aborts with a transport-level failure — for every service, so
the endpoint is never consulted and no payload with an embedded error field
is produced; a body the decoder accepts yields the decoded request with a
nil error. -/
theorem decode_errors_are_transport_errors (body : String) (S : Service) :
    (∀ e, jsonDecodeHashRequest body = Except.error e →
      decodeHashRequest body = (none, some e) ∧
      httpServe decodeHashRequest (MakeHashEndpoint S) body = Except.error e) ∧
    (∀ req, jsonDecodeHashRequest body = Except.ok req →
      decodeHashRequest body = (some req, none)) ∧
    (∀ e, jsonDecodeValidateRequest body = Except.error e →
      decodeValidateRequest body = (none, some e) ∧
      httpServe decodeValidateRequest (MakeValidateEndpoint S) body =
        Except.error e) ∧
    (∀ req, jsonDecodeValidateRequest body = Except.ok req →
      decodeValidateRequest body = (some req, none)) := by
  refine ⟨?_, ?_, ?_, ?_⟩ <;> intro x hx <;>
    simp [decodeHashRequest, decodeValidateRequest, httpServe, hx]

/-- Concrete JSON object builder for witnesses (the braces are attached at
the character level). -/
def mkObj (fields : String) : String :=
  String.mk (Char.ofNat 123 :: fields.data ++ [Char.ofNat 125])

/-- C8 witness: the malformed body "nope" aborts both decoders with a
transport error, and well-formed bodies decode to the expected requests. -/
theorem decode_errors_are_transport_errors_witness :
    decodeHashRequest "nope" = (none, some "invalid JSON") ∧
    httpServe decodeHashRequest (MakeHashEndpoint badHashService) "nope" =
      Except.error "invalid JSON" ∧
    decodeHashRequest (mkObj "\"password\":\"x\"") =
      (some { Password := "x" }, none) ∧
    decodeValidateRequest "nope" = (none, some "invalid JSON") ∧
    decodeValidateRequest (mkObj "\"password\":\"x\",\"hash\":\"y\"") =
      (some { Password := "x", Hash := "y" }, none) :=
  ⟨((decode_errors_are_transport_errors "nope" badHashService).1
      "invalid JSON" rfl).1,
   ((decode_errors_are_transport_errors "nope" badHashService).1
      "invalid JSON" rfl).2,
   (decode_errors_are_transport_errors (mkObj "\"password\":\"x\"")
      badHashService).2.1 { Password := "x" } rfl,
   ((decode_errors_are_transport_errors "nope" badHashService).2.2.1
      "invalid JSON" rfl).1,
   (decode_errors_are_transport_errors
      (mkObj "\"password\":\"x\",\"hash\":\"y\"") badHashService).2.2.2
      { Password := "x", Hash := "y" } rfl⟩

/- Rate limiting (main.go, lines 121–134).  The bucket (`ratelimit.Bucket`)
and the distinguished error are external collaborators; the bucket's token
count is threaded explicitly as state. -/

/-- Modelled from the spec: the distinguished "limited" transport error of
the rate-limiting package. -/
def ErrLimited : String := "rate limit exceeded"

/-- Modelled from the spec: `Bucket.TakeAvailable` removes up to `count`
tokens, returning the number removed and the remaining tokens; it never
blocks. -/
def TakeAvailable (count tokens : Nat) : Nat × Nat :=
  (min count tokens, tokens - min count tokens)

/-- `NewTokenBucketLimiter` (main.go, lines 121–134): take one token from
the bucket; with no token available, fail fast with `ErrLimited` and a nil
response, otherwise pass the call through to the wrapped endpoint. -/
def NewTokenBucketLimiter {α β : Type} (next : α → Option β × Option String)
    (tokens : Nat) (request : α) : (Option β × Option String) × Nat :=
  if (TakeAvailable 1 tokens).1 = 0 then
    ((none, some ErrLimited), (TakeAvailable 1 tokens).2)
  else
    (next request, (TakeAvailable 1 tokens).2)

/-- C9: with an empty bucket the limiter returns the distinguished limited
error and a nil response without consulting the wrapped endpoint (the result
is fixed for every `next`), leaving the bucket empty; with a token available
it consumes exactly one token and returns the wrapped endpoint's result
unchanged. -/
theorem token_bucket_limiter {α β : Type} (next : α → Option β × Option String)
    (tokens : Nat) (req : α) :
    (tokens = 0 →
      NewTokenBucketLimiter next tokens req = ((none, some ErrLimited), 0)) ∧
    (∀ n, tokens = n + 1 →
      NewTokenBucketLimiter next tokens req = (next req, n)) := by
  constructor
  · rintro rfl
    simp [NewTokenBucketLimiter, TakeAvailable]
  · rintro n rfl
    have hmin : min 1 (n + 1) = 1 := by omega
    simp [NewTokenBucketLimiter, TakeAvailable, hmin]

/-- A concrete endpoint used to probe the limiter. -/
def probeEndpoint : Nat → Option Bool × Option String := fun _ => (some true, none)

/-- C9 witness: the limiter at bucket sizes 0 and 3 on a concrete request. -/
theorem token_bucket_limiter_witness :
    NewTokenBucketLimiter probeEndpoint 0 7 = ((none, some ErrLimited), 0) ∧
    NewTokenBucketLimiter probeEndpoint 3 7 = ((some true, none), 2) :=
  ⟨(token_bucket_limiter probeEndpoint 0 7).1 rfl,
   by simpa [probeEndpoint] using (token_bucket_limiter probeEndpoint 3 7).2 2 rfl⟩

/- Process bootstrap (main.go, lines 20–114).  `main` is straight-line at
the top level; its sequence of effects is embedded as a list of operations.
Per Go semantics a normal return from `main` terminates the process with
exit status 0, while `log.Fatalln` terminates it with a non-zero status. -/

/-- The top-level effects `main` can perform. -/
inductive MainOp where
  | makeErrChan
  | spawnSignalWaiter
  | makeEndpoints
  | spawnHTTPServer
  | spawnGRPCServer
  | recvErrChan
  | logFatal
deriving DecidableEq

/-- The top-level effect sequence of `main` (main.go, lines 44–113): create
the error channel, spawn the signal-waiting goroutine, build the endpoints
aggregate, spawn the HTTP and gRPC server goroutines — and then return.  No
receive from the error channel and no fatal-logging call occurs. -/
def mainOps : List MainOp :=
  [MainOp.makeErrChan, MainOp.spawnSignalWaiter, MainOp.makeEndpoints,
   MainOp.spawnHTTPServer, MainOp.spawnGRPCServer]

/-- Exit status of the process under Go semantics: non-zero exactly when a
fatal-logging call runs, 0 when `main` returns normally. -/
def processExitStatus (ops : List MainOp) : Nat :=
  if MainOp.logFatal ∈ ops then 1 else 0

/-- Whether `main` ever blocks on the error channel. -/
def mainWaitsOnErrChan (ops : List MainOp) : Bool :=
  decide (MainOp.recvErrChan ∈ ops)

/-- C7: `main` never receives from the error channel — the final blocking
receive the spec describes is absent — so the process does not wait for the
first HTTP error, gRPC error or termination signal, and it exits with status
0 immediately after spawning the listener goroutines. -/
theorem main_exits_immediately :
    mainWaitsOnErrChan mainOps = false ∧
    MainOp.recvErrChan ∉ mainOps ∧
    MainOp.logFatal ∉ mainOps ∧
    processExitStatus mainOps = 0 := by
  refine ⟨by decide, by decide, by decide, by decide⟩
